import Mathlib

/-!
Shallow embedding of two modules of the block-editor repository:

* the pattern-selection hook (`use-patterns`): `templatePartToPattern`,
  `patternBlockToPattern`, `selectTemplatePartsAsPatterns`,
  `selectThemePatterns`, `selectPatterns`, `selectUserPatterns`,
  `usePatterns`;
* the quote block's v2 transform table (`transforms.js`): the
  quote-to-group transform and the quote-to-pullquote `isMatch` predicate.

JavaScript values are embedded with `Option` for possibly
`null`/`undefined` fields; string truthiness (`''` and `undefined` are
falsy) is `jsTruthy`.  The reactive data store is a `StoreState` record
holding the results every store read of the module can return, and
`select*` functions take it explicitly.
-/

/-- Truthiness of a JavaScript string-or-nullish value: `undefined`, `null`
and the empty string are falsy, every other string is truthy. -/
def jsTruthy : Option String → Bool
  | none => false
  | some s => s != ""

/-- A parsed block: name, attributes (string-valued) and inner blocks.
Modelled from the spec: the external block representation of the
block-parsing/serialization API, which is outside this repository's scope. -/
inductive JBlock where
  | mk : String → List (String × String) → List JBlock → JBlock

/-- The block's name. -/
def JBlock.name : JBlock → String
  | .mk n _ _ => n

/-- The block's attributes. -/
def JBlock.attrs : JBlock → List (String × String)
  | .mk _ a _ => a

/-- The block's inner blocks. -/
def JBlock.innerBlocks : JBlock → List JBlock
  | .mk _ _ bs => bs

/-- Modelled from the spec: `createBlock` of the external block API
(outside this repository's scope), represented structurally. -/
def createBlock (name : String) (attributes : List (String × String))
    (innerBlocks : List JBlock) : JBlock :=
  JBlock.mk name attributes innerBlocks

/-- Modelled from the spec: `parse` of the external block API (outside this
repository's scope); represented as a one-block parse carrying the raw
content, since no claim inspects the parser's output. -/
def parse (content : String) : List JBlock :=
  [JBlock.mk "core/freeform" [("content", content)] []]

/-- Modelled from the spec: `decodeEntities` of the external html-entities
package (outside this repository's scope), as a decoder of the five basic
named/numeric entities. -/
def decodeEntities (s : String) : String :=
  ((((s.replace "&lt;" "<").replace "&gt;" ">").replace "&quot;" "\"").replace
      "&#039;" "\x27").replace "&amp;" "&"

/-- Modelled from the spec: the `TEMPLATE_PARTS` constant of ./utils (not in
src/), the post type of template parts; the value matches the literal
`'wp_template_part'` the source passes to `getIsResolving`. -/
def TEMPLATE_PARTS : String := "wp_template_part"

/-- Modelled from the spec: the `PATTERNS` constant of ./utils (not in src/),
the category type of theme patterns. -/
def PATTERNS : String := "pattern"

/-- Modelled from the spec: the `USER_PATTERNS` constant of ./utils (not in
src/), the post type of user-authored pattern posts. -/
def USER_PATTERNS : String := "wp_block"

/-- Modelled from the spec: the `SYNC_TYPES.full` constant of ./utils (not in
src/), the default sync status of a user pattern. -/
def SYNC_TYPES.full : String := "fully"

/-- Modelled from the spec: the `CORE_PATTERN_SOURCES` constant of ./utils
(not in src/): sources of core-provided patterns, filtered out of theme
patterns. -/
def CORE_PATTERN_SOURCES : List String :=
  ["core", "pattern-directory/core", "pattern-directory/default",
    "pattern-directory/featured"]

/-- A template-part entity record, with the fields the module reads.
`theme`, `slug`, `description` and `keywords` may be absent. -/
structure TemplatePartRecord where
  content_raw : String
  area : String
  description : Option String
  source : String
  keywords : Option (List String)
  theme : Option String
  slug : Option String
  title_rendered : String
  type : String

/-- A user-authored pattern post (`wp_block` record), with the fields the
module reads. -/
structure PatternBlock where
  content_raw : String
  wp_pattern_category : List String
  id : String
  slug : String
  wp_pattern_sync_status : Option String
  title_raw : String

/-- A theme-provided block pattern as delivered by the settings or the REST
endpoint, with the fields the module reads. -/
structure ThemePattern where
  name : String
  title : Option String
  content : String
  source : Option String
  inserter : Option Bool
  keywords : Option (List String)
  categories : Option (List String)
  syncStatus : Option String

/-- A default template-part area object; the module only reads `.area`. -/
structure TemplatePartArea where
  area : String

/-- The result of `getUserPatternCategories`: the id-to-slug map (the module
only reads an entry's `slug`, so entries are slugs) and the category list. -/
structure UserPatternCategories where
  patternCategoriesMap : Option (List (String × String))
  patternCategories : List String

/-- The normalized pattern shape the selectors produce.  Fields a given
producer leaves off the object are `none`; which keys each producer actually
puts on its object literal is recorded separately by the `...Keys`
functions. -/
structure Pattern where
  blocks : List JBlock
  categories : Option (List String)
  description : Option String
  isCustom : Option Bool
  keywords : Option (List String)
  id : Option String
  name : Option String
  syncStatus : Option String
  title : Option String
  type : Option String
  templatePart : Option TemplatePartRecord
  patternBlock : Option PatternBlock
  source : Option String
  inserter : Option Bool
  content : Option String

/-- The reactive store reads the module performs, as one explicit state. -/
structure StoreState where
  templatePartRecords : Option (List TemplatePartRecord)
  isResolvingTemplateParts : Bool
  defaultTemplatePartAreas : Option (List TemplatePartArea)
  additionalBlockPatterns : Option (List ThemePattern)
  blockPatterns : Option (List ThemePattern)
  restBlockPatterns : Option (List ThemePattern)
  userPatternRecords : Option (List PatternBlock)
  isResolvingUserPatterns : Bool
  userPatternCategories : UserPatternCategories

/-- What a `select*` function returns: `selectUserPatterns` also carries the
user pattern categories; the others leave that key off. -/
structure SelectResult where
  patterns : List Pattern
  isResolving : Bool
  categories : Option (List String)

/-- The shared empty list every selector returns when there is nothing. -/
def EMPTY_PATTERN_LIST : List Pattern := []

/-- `createTemplatePartId` (source lines 27-28): `theme + '//' + slug` when
both are truthy, `null` otherwise. -/
def createTemplatePartId (theme slug : Option String) : Option String :=
  if jsTruthy theme && jsTruthy slug then
    some (theme.getD "" ++ "//" ++ slug.getD "")
  else none

/-- `templatePartToPattern` (source lines 30-43). -/
def templatePartToPattern (templatePart : TemplatePartRecord) : Pattern where
  blocks := parse templatePart.content_raw
  categories := some [templatePart.area]
  description := some (templatePart.description.getD "")
  isCustom := some (templatePart.source == "custom")
  keywords := some (templatePart.keywords.getD [])
  id := createTemplatePartId templatePart.theme templatePart.slug
  name := createTemplatePartId templatePart.theme templatePart.slug
  syncStatus := none
  title := some (decodeEntities templatePart.title_rendered)
  type := some templatePart.type
  templatePart := some templatePart
  patternBlock := none
  source := none
  inserter := none
  content := none

/-- The keys of the object literal `templatePartToPattern` returns, in
source order (source lines 30-43). -/
def templatePartToPatternKeys (_templatePart : TemplatePartRecord) :
    List String :=
  ["blocks", "categories", "description", "isCustom", "keywords", "id",
    "name", "title", "type", "templatePart"]

/-- One user-pattern category value (source lines 153-158): the slug of the
map entry for the id when the map exists and has one, the raw id
otherwise. -/
def mapUserCategory (categories : Option (List (String × String)))
    (patternCategoryId : String) : String :=
  match categories.bind (fun m => m.lookup patternCategoryId) with
  | some slug => slug
  | none => patternCategoryId

/-- The user pattern's sync status (source line 162):
`wp_pattern_sync_status || SYNC_TYPES.full`. -/
def userPatternSyncStatus (wp_pattern_sync_status : Option String) : String :=
  match wp_pattern_sync_status with
  | some s => if s = "" then SYNC_TYPES.full else s
  | none => SYNC_TYPES.full

/-- `patternBlockToPattern` (source lines 148-166); the `categories` key is
spread onto the object only when `wp_pattern_category` is non-empty. -/
def patternBlockToPattern (patternBlock : PatternBlock)
    (categories : Option (List (String × String))) : Pattern where
  blocks := parse patternBlock.content_raw
  categories :=
    if 0 < patternBlock.wp_pattern_category.length then
      some (patternBlock.wp_pattern_category.map (mapUserCategory categories))
    else none
  description := none
  isCustom := none
  keywords := none
  id := some patternBlock.id
  name := some patternBlock.slug
  syncStatus := some (userPatternSyncStatus patternBlock.wp_pattern_sync_status)
  title := some patternBlock.title_raw
  type := some USER_PATTERNS
  templatePart := none
  patternBlock := some patternBlock
  source := none
  inserter := none
  content := none

/-- The keys of the object literal `patternBlockToPattern` returns, in
source order (source lines 148-166): `categories` only when
`wp_pattern_category` is non-empty. -/
def patternBlockToPatternKeys (patternBlock : PatternBlock)
    (_categories : Option (List (String × String))) : List String :=
  ["blocks"]
    ++ (if 0 < patternBlock.wp_pattern_category.length then ["categories"]
        else [])
    ++ ["id", "name", "syncStatus", "title", "type", "patternBlock"]

/-- The configuration object handed to `searchItems`: the requested category
(possibly absent) and the category predicate, receiving the requested
category. -/
structure SearchConfig where
  categoryId : Option String
  hasCategory : Pattern → Option String → Bool

/-- Whether a pattern matches a search string.  Modelled from the spec:
`searchItems` (./search-items, not in src/) searches "a small in-memory
list"; an empty search matches everything, otherwise the title must contain
the search string. -/
def matchesSearch (search : String) (item : Pattern) : Bool :=
  search == "" || decide (1 < ((item.title.getD "").splitOn search).length)

/-- Modelled from the spec: `searchItems` (./search-items, not in src/),
"filtering/deduplicating/searching a small in-memory list": it keeps the
items accepted by the configuration's category predicate (applied to the
requested category) and matching the search string, in order. -/
def searchItems (items : List Pattern) (search : String)
    (config : SearchConfig) : List Pattern :=
  (items.filter (fun item => config.hasCategory item config.categoryId)).filter
    (fun item => matchesSearch search item)

/-- The `templatePartHasCategory` closure (source lines 65-74): outside
`'uncategorized'` an item matches its own area; under `'uncategorized'` it
also matches when its area is not a known area.  An item of this selector
always carries its `templatePart`; `none` is unreachable. -/
def templatePartHasCategory (templatePartAreas : List String)
    (item : Pattern) (category : String) : Bool :=
  match item.templatePart with
  | none => false
  | some tp =>
    if category != "uncategorized" then tp.area == category
    else tp.area == category || !(templatePartAreas.contains tp.area)

/-- `selectTemplatePartsAsPatterns` (source lines 45-88). -/
def selectTemplatePartsAsPatterns (st : StoreState)
    (categoryId : Option String) (search : String) : SelectResult :=
  let rawTemplateParts := st.templatePartRecords.getD []
  let templateParts := rawTemplateParts.map templatePartToPattern
  let knownAreas := st.defaultTemplatePartAreas.getD []
  let templatePartAreas := knownAreas.map (fun a => a.area)
  let isResolving := st.isResolvingTemplateParts
  let patterns := searchItems templateParts search
    ⟨categoryId, fun item c =>
      match c with
      | some category => templatePartHasCategory templatePartAreas item category
      | none => true⟩
  { patterns := patterns, isResolving := isResolving, categories := none }

/-- The projection `selectThemePatterns` maps over each kept theme pattern
(source lines 108-115): spread of the pattern, defaulted keywords, type
`'pattern'`, parsed blocks. -/
def themePatternToPattern (p : ThemePattern) : Pattern where
  blocks := parse p.content
  categories := p.categories
  description := none
  isCustom := none
  keywords := some (p.keywords.getD [])
  id := none
  name := some p.name
  syncStatus := p.syncStatus
  title := p.title
  type := some "pattern"
  templatePart := none
  patternBlock := none
  source := p.source
  inserter := p.inserter
  content := some p.content

/-- Modelled from the spec: `filterOutDuplicatesByName` of ./utils (not in
src/): deduplication keeping the first pattern of each name. -/
def dedupByName (seen : List String) : List ThemePattern → List ThemePattern
  | [] => []
  | p :: rest =>
    if seen.contains p.name then dedupByName seen rest
    else p :: dedupByName (p.name :: seen) rest

/-- `selectThemePatterns` (source lines 90-118). -/
def selectThemePatterns (st : StoreState) : SelectResult :=
  let blockPatterns :=
    match st.additionalBlockPatterns with
    | some b => some b
    | none => st.blockPatterns
  let restBlockPatterns := st.restBlockPatterns
  let patterns :=
    (dedupByName []
      ((blockPatterns.getD [] ++ restBlockPatterns.getD []).filter
        (fun pattern =>
          match pattern.source with
          | some s => !(CORE_PATTERN_SOURCES.contains s)
          | none => true))).filter (fun pattern => pattern.inserter != some false)
      |>.map themePatternToPattern
  { patterns := patterns, isResolving := false, categories := none }

/-- `selectUserPatterns` (source lines 168-202). -/
def selectUserPatterns (st : StoreState) (search : String)
    (syncStatus : Option String) : SelectResult :=
  let records := st.userPatternRecords
  let categories := st.userPatternCategories
  let patterns0 :=
    match records with
    | some rs =>
      rs.map (fun record =>
        patternBlockToPattern record categories.patternCategoriesMap)
    | none => EMPTY_PATTERN_LIST
  let patterns1 :=
    if jsTruthy syncStatus then
      patterns0.filter (fun pattern => decide (pattern.syncStatus = syncStatus))
    else patterns0
  let patterns2 := searchItems patterns1 search ⟨none, fun _ _ => true⟩
  { patterns := patterns2, isResolving := st.isResolvingUserPatterns,
    categories := some categories.patternCategories }

/-- `selectPatterns` (source lines 119-146). -/
def selectPatterns (st : StoreState) (categoryId : Option String)
    (search : String) (syncStatus : Option String) : SelectResult :=
  let themePatterns := (selectThemePatterns st).patterns
  let userPatterns := (selectUserPatterns st "" none).patterns
  let patterns0 := themePatterns ++ userPatterns
  let patterns1 :=
    if jsTruthy syncStatus then
      patterns0.filter (fun pattern => decide (pattern.syncStatus = syncStatus))
    else patterns0
  let patterns2 :=
    if jsTruthy categoryId then
      searchItems patterns1 search
        ⟨categoryId, fun item c =>
          match c, item.categories with
          | some currentCategory, some cs => cs.contains currentCategory
          | _, _ => false⟩
    else
      searchItems patterns1 search ⟨none, fun item _ => item.categories.isNone⟩
  { patterns := patterns2, isResolving := false, categories := none }

/-- `usePatterns` (source lines 204-229): dispatch on the category type; any
other category type yields the canonical empty result. -/
def usePatterns (st : StoreState) (categoryType : Option String)
    (categoryId : Option String) (search : String)
    (syncStatus : Option String) : SelectResult :=
  if categoryType = some TEMPLATE_PARTS then
    selectTemplatePartsAsPatterns st categoryId search
  else if categoryType = some PATTERNS then
    selectPatterns st categoryId search syncStatus
  else if categoryType = some USER_PATTERNS then
    selectUserPatterns st search syncStatus
  else
    { patterns := EMPTY_PATTERN_LIST, isResolving := false, categories := none }

/-- The quote-to-group transform (transforms.js lines 44-61): a group with
empty attributes whose inner blocks are the quote's, with one attribution
paragraph appended when the attribution is truthy. -/
def quoteToGroupTransform (attribution : Option String)
    (innerBlocks : List JBlock) : JBlock :=
  createBlock "core/group" []
    (if jsTruthy attribution then
      innerBlocks ++ [createBlock "core/paragraph"
        [("content", attribution.getD "")] []]
    else innerBlocks)

/-- The quote-to-pullquote `isMatch` predicate (transforms.js lines 65-69):
every inner block of the quote is a paragraph. -/
def quoteToPullquoteIsMatch (_attributes : List (String × String))
    (block : JBlock) : Bool :=
  block.innerBlocks.all (fun b => b.name == "core/paragraph")

/-- A concrete template-part record used to instantiate the theorems. -/
def sampleTemplatePart : TemplatePartRecord where
  content_raw := ""
  area := "header"
  description := none
  source := "custom"
  keywords := none
  theme := some "twentytwentyfour"
  slug := some "header"
  title_rendered := "Header"
  type := "wp_template_part"

/-- A concrete user pattern post with no categories. -/
def samplePatternBlockNoCat : PatternBlock where
  content_raw := ""
  wp_pattern_category := []
  id := "101"
  slug := "my-pattern"
  wp_pattern_sync_status := none
  title_raw := "My Pattern"

/-- A concrete user pattern post with one category. -/
def samplePatternBlockCat : PatternBlock where
  content_raw := ""
  wp_pattern_category := ["7"]
  id := "102"
  slug := "cat-pattern"
  wp_pattern_sync_status := some "unsynced"
  title_raw := "Cat Pattern"

/-- A store state in which every record query resolves to nothing. -/
def emptyStoreState : StoreState where
  templatePartRecords := none
  isResolvingTemplateParts := false
  defaultTemplatePartAreas := none
  additionalBlockPatterns := none
  blockPatterns := none
  restBlockPatterns := none
  userPatternRecords := none
  isResolvingUserPatterns := false
  userPatternCategories := ⟨none, []⟩

/-- Anything `searchItems` returns was among the items it was given. -/
theorem mem_of_mem_searchItems {items : List Pattern} {search : String}
    {config : SearchConfig} {p : Pattern}
    (h : p ∈ searchItems items search config) : p ∈ items := by
  simp only [searchItems, List.mem_filter] at h
  exact h.1.1

/-- Anything surviving the sync-status filter has that sync status. -/
theorem syncStatus_of_mem_filter {l : List Pattern} {ss : Option String}
    {p : Pattern}
    (h : p ∈ l.filter (fun pattern => decide (pattern.syncStatus = ss))) :
    p.syncStatus = ss := by
  simp only [List.mem_filter, decide_eq_true_eq] at h
  exact h.2

/-- C1 (counterexample): at concrete inputs the nine-field claim fails: a
template-part pattern has no `syncStatus` key, and a user pattern with no
categories has no `keywords`, `isCustom` or `categories` key. -/
theorem pattern_field_set_cex :
    "syncStatus" ∉ templatePartToPatternKeys sampleTemplatePart ∧
    "keywords" ∉ patternBlockToPatternKeys samplePatternBlockNoCat none ∧
    "isCustom" ∉ patternBlockToPatternKeys samplePatternBlockNoCat none ∧
    "categories" ∉ patternBlockToPatternKeys samplePatternBlockNoCat none := by
  decide

/-- C1 (amended): `templatePartToPattern` puts the keys {blocks, categories,
description, isCustom, keywords, id, name, title, type, templatePart} on its
object — the spec's nine except `syncStatus`, plus `description` and
`templatePart`; `patternBlockToPattern` puts on {blocks, id, name,
syncStatus, title, type, patternBlock}, with `categories` exactly when
`wp_pattern_category` is non-empty, and never `keywords` or `isCustom`. -/
theorem pattern_field_set_amended (tp : TemplatePartRecord)
    (pb : PatternBlock) (cats : Option (List (String × String))) :
    ("id" ∈ templatePartToPatternKeys tp ∧
      "name" ∈ templatePartToPatternKeys tp ∧
      "title" ∈ templatePartToPatternKeys tp ∧
      "blocks" ∈ templatePartToPatternKeys tp ∧
      "categories" ∈ templatePartToPatternKeys tp ∧
      "keywords" ∈ templatePartToPatternKeys tp ∧
      "type" ∈ templatePartToPatternKeys tp ∧
      "isCustom" ∈ templatePartToPatternKeys tp ∧
      "description" ∈ templatePartToPatternKeys tp ∧
      "templatePart" ∈ templatePartToPatternKeys tp ∧
      "syncStatus" ∉ templatePartToPatternKeys tp) ∧
    ("id" ∈ patternBlockToPatternKeys pb cats ∧
      "name" ∈ patternBlockToPatternKeys pb cats ∧
      "title" ∈ patternBlockToPatternKeys pb cats ∧
      "blocks" ∈ patternBlockToPatternKeys pb cats ∧
      "syncStatus" ∈ patternBlockToPatternKeys pb cats ∧
      "type" ∈ patternBlockToPatternKeys pb cats ∧
      "patternBlock" ∈ patternBlockToPatternKeys pb cats ∧
      "keywords" ∉ patternBlockToPatternKeys pb cats ∧
      "isCustom" ∉ patternBlockToPatternKeys pb cats ∧
      ("categories" ∈ patternBlockToPatternKeys pb cats ↔
        pb.wp_pattern_category ≠ [])) := by
  constructor
  · simp only [templatePartToPatternKeys]
    decide
  · rcases eq_or_ne pb.wp_pattern_category [] with h | h
    · simp [patternBlockToPatternKeys, h]
    · have hl : 0 < pb.wp_pattern_category.length := List.length_pos.mpr h
      simp [patternBlockToPatternKeys, hl, h]

/-- C3: the quote-to-pullquote transform's `isMatch` accepts a quote exactly
when every inner block is a `core/paragraph` (in particular when there are
none). -/
theorem pullquote_isMatch_iff_all_paragraphs
    (attributes : List (String × String)) (block : JBlock) :
    quoteToPullquoteIsMatch attributes block = true ↔
      ∀ b ∈ block.innerBlocks, b.name = "core/paragraph" := by
  simp [quoteToPullquoteIsMatch, List.all_eq_true]

/-- C9: the quote-to-group transform yields a group with empty attributes
whose inner blocks are exactly the quote's, with one attribution paragraph
appended exactly when the attribution is truthy; the original inner blocks
and their order are preserved. -/
theorem quote_to_group_transform_shape (attribution : Option String)
    (innerBlocks : List JBlock) :
    (quoteToGroupTransform attribution innerBlocks).name = "core/group" ∧
    (quoteToGroupTransform attribution innerBlocks).attrs = [] ∧
    (∀ s, attribution = some s → s ≠ "" →
      (quoteToGroupTransform attribution innerBlocks).innerBlocks =
        innerBlocks ++ [createBlock "core/paragraph" [("content", s)] []]) ∧
    (jsTruthy attribution = false →
      (quoteToGroupTransform attribution innerBlocks).innerBlocks =
        innerBlocks) ∧
    (quoteToGroupTransform attribution innerBlocks).innerBlocks.take
        innerBlocks.length = innerBlocks := by
  refine ⟨rfl, rfl, ?_, ?_, ?_⟩
  · rintro s rfl hs
    simp [quoteToGroupTransform, createBlock, jsTruthy, JBlock.innerBlocks, hs]
  · intro hf
    simp [quoteToGroupTransform, createBlock, JBlock.innerBlocks, hf]
  · by_cases hT : jsTruthy attribution = true
    · simp [quoteToGroupTransform, createBlock, JBlock.innerBlocks, hT,
        List.take_left]
    · simp [quoteToGroupTransform, createBlock, JBlock.innerBlocks, hT,
        List.take_length]

/-- C10: a user pattern has a `categories` key (and value) exactly when its
record's `wp_pattern_category` is non-empty, and then of the same length. -/
theorem user_pattern_categories_presence (pb : PatternBlock)
    (cats : Option (List (String × String))) :
    (pb.wp_pattern_category = [] →
      "categories" ∉ patternBlockToPatternKeys pb cats ∧
      (patternBlockToPattern pb cats).categories = none) ∧
    (pb.wp_pattern_category ≠ [] →
      "categories" ∈ patternBlockToPatternKeys pb cats ∧
      ∃ cs, (patternBlockToPattern pb cats).categories = some cs ∧
        cs.length = pb.wp_pattern_category.length) := by
  constructor
  · intro h
    constructor
    · simp [patternBlockToPatternKeys, h]
    · simp [patternBlockToPattern, h]
  · intro h
    have hl : 0 < pb.wp_pattern_category.length := List.length_pos.mpr h
    refine ⟨?_,
      pb.wp_pattern_category.map (mapUserCategory cats), ?_, ?_⟩
    · simp [patternBlockToPatternKeys, hl]
    · simp [patternBlockToPattern, hl]
    · simp

/-- C5: a template-part pattern's derived fields agree with its record: `id`
equals `name`, both are `theme + '//' + slug` when theme and slug are truthy
and null otherwise; `isCustom` holds exactly for source `'custom'`; `title`
is the entity-decoded rendered title; `type` is the record's type. -/
theorem templatePart_pattern_consistent (tp : TemplatePartRecord) :
    (templatePartToPattern tp).id = (templatePartToPattern tp).name ∧
    (∀ t s, tp.theme = some t → tp.slug = some s → t ≠ "" → s ≠ "" →
      (templatePartToPattern tp).id = some (t ++ "//" ++ s)) ∧
    (jsTruthy tp.theme = false → (templatePartToPattern tp).id = none) ∧
    (jsTruthy tp.slug = false → (templatePartToPattern tp).id = none) ∧
    ((templatePartToPattern tp).isCustom = some true ↔
      tp.source = "custom") ∧
    (templatePartToPattern tp).title =
      some (decodeEntities tp.title_rendered) ∧
    (templatePartToPattern tp).type = some tp.type := by
  refine ⟨rfl, ?_, ?_, ?_, ?_, rfl, rfl⟩
  · intro t s ht hs htne hsne
    simp [templatePartToPattern, createTemplatePartId, jsTruthy, ht, hs,
      htne, hsne]
  · intro h
    simp [templatePartToPattern, createTemplatePartId, h]
  · intro h
    simp [templatePartToPattern, createTemplatePartId, h]
  · simp [templatePartToPattern]

/-- C2: when a record query resolves to nothing, the selectors return the
empty pattern list. -/
theorem empty_records_empty_patterns (st : StoreState)
    (categoryId : Option String) (search : String)
    (syncStatus : Option String) (h1 : st.templatePartRecords = none)
    (h2 : st.userPatternRecords = none) :
    (selectTemplatePartsAsPatterns st categoryId search).patterns = [] ∧
    (selectUserPatterns st search syncStatus).patterns = [] := by
  constructor
  · simp [selectTemplatePartsAsPatterns, searchItems, h1]
  · simp [selectUserPatterns, searchItems, EMPTY_PATTERN_LIST, h2]

/-- C2 (witness): at the store state with no records at all, both selectors
return the empty list. -/
theorem empty_records_empty_patterns_witness :
    (selectTemplatePartsAsPatterns emptyStoreState none "").patterns = [] ∧
    (selectUserPatterns emptyStoreState "" none).patterns = [] :=
  empty_records_empty_patterns emptyStoreState none "" none rfl rfl

/-- C4: each category id of a user pattern is replaced by the slug of the
map entry for that id when the map has one, and kept as the raw id
otherwise (also when the map itself is absent). -/
theorem user_category_id_to_slug (pb : PatternBlock)
    (cats : Option (List (String × String))) (i : Nat) (cid : String)
    (h : pb.wp_pattern_category.get? i = some cid) :
    (∀ m slug, cats = some m → m.lookup cid = some slug →
      ((patternBlockToPattern pb cats).categories.getD []).get? i =
        some slug) ∧
    (cats.bind (fun m => m.lookup cid) = none →
      ((patternBlockToPattern pb cats).categories.getD []).get? i =
        some cid) := by
  have hlt : i < pb.wp_pattern_category.length := by
    rcases List.get?_eq_some.mp h with ⟨hlt, _⟩
    exact hlt
  have hl : 0 < pb.wp_pattern_category.length :=
    Nat.lt_of_le_of_lt (Nat.zero_le i) hlt
  have hcat : (patternBlockToPattern pb cats).categories =
      some (pb.wp_pattern_category.map (mapUserCategory cats)) := by
    simp [patternBlockToPattern, hl]
  have h' : pb.wp_pattern_category[i]? = some cid := by
    rw [← List.get?_eq_getElem?]
    exact h
  constructor
  · rintro m slug rfl hm
    rw [hcat, Option.getD_some, List.get?_eq_getElem?, List.getElem?_map, h']
    simp [mapUserCategory, hm]
  · intro hn
    rw [hcat, Option.getD_some, List.get?_eq_getElem?, List.getElem?_map, h']
    simp [mapUserCategory, hn]

/-- C4 (witness): at a concrete pattern post with category id `"7"` and a
map sending `"7"` to `"seven"`, the id is replaced by the slug (and the
raw-id branch holds vacuously). -/
theorem user_category_id_to_slug_witness :
    (∀ m slug,
      (some [("7", "seven")] : Option (List (String × String))) = some m →
      m.lookup "7" = some slug →
      ((patternBlockToPattern samplePatternBlockCat
          (some [("7", "seven")])).categories.getD []).get? 0 =
        some slug) ∧
    ((some [("7", "seven")] : Option (List (String × String))).bind
        (fun m => m.lookup "7") = none →
      ((patternBlockToPattern samplePatternBlockCat
          (some [("7", "seven")])).categories.getD []).get? 0 =
        some "7") :=
  user_category_id_to_slug samplePatternBlockCat (some [("7", "seven")])
    0 "7" rfl

/-- C6: with a truthy sync-status argument, every pattern `selectPatterns`
or `selectUserPatterns` returns carries exactly that sync status; and a user
pattern's sync status defaults to `SYNC_TYPES.full` when its
`wp_pattern_sync_status` is falsy. -/
theorem sync_status_filter_sound (st : StoreState)
    (categoryId : Option String) (search : String)
    (syncStatus : Option String) (s : String) (h1 : syncStatus = some s)
    (h2 : s ≠ "") :
    (∀ p ∈ (selectPatterns st categoryId search syncStatus).patterns,
      p.syncStatus = syncStatus) ∧
    (∀ p ∈ (selectUserPatterns st search syncStatus).patterns,
      p.syncStatus = syncStatus) ∧
    (∀ (pb : PatternBlock) (cats : Option (List (String × String))),
      pb.wp_pattern_sync_status = none ∨
        pb.wp_pattern_sync_status = some "" →
      (patternBlockToPattern pb cats).syncStatus = some SYNC_TYPES.full) := by
  have hts : jsTruthy syncStatus = true := by
    subst h1
    simp [jsTruthy, h2]
  refine ⟨?_, ?_, ?_⟩
  · intro p hp
    simp only [selectPatterns, hts, eq_self_iff_true, if_true] at hp
    split at hp <;>
      exact syncStatus_of_mem_filter (mem_of_mem_searchItems hp)
  · intro p hp
    simp only [selectUserPatterns, hts, eq_self_iff_true, if_true] at hp
    exact syncStatus_of_mem_filter (mem_of_mem_searchItems hp)
  · rintro pb cats (h | h) <;>
      simp [patternBlockToPattern, userPatternSyncStatus, h]

/-- C6 (witness): instantiated at the empty store state and the truthy sync
status `"unsynced"`. -/
theorem sync_status_filter_sound_witness :
    (∀ p ∈ (selectPatterns emptyStoreState none ""
        (some "unsynced")).patterns, p.syncStatus = some "unsynced") ∧
    (∀ p ∈ (selectUserPatterns emptyStoreState ""
        (some "unsynced")).patterns, p.syncStatus = some "unsynced") ∧
    (∀ (pb : PatternBlock) (cats : Option (List (String × String))),
      pb.wp_pattern_sync_status = none ∨
        pb.wp_pattern_sync_status = some "" →
      (patternBlockToPattern pb cats).syncStatus = some SYNC_TYPES.full) :=
  sync_status_filter_sound emptyStoreState none "" (some "unsynced")
    "unsynced" rfl (by decide)

/-- C7: the projections and selectors are deterministic — equal inputs give
equal outputs — and each projection carries its source record unchanged in
the output (the shallow embedding's rendering of "the input record is not
mutated"). -/
theorem projections_deterministic (tp tp' : TemplatePartRecord)
    (pb pb' : PatternBlock) (cats cats' : Option (List (String × String)))
    (st st' : StoreState) (categoryId : Option String) (search : String)
    (syncStatus : Option String) (h1 : tp = tp') (h2 : pb = pb')
    (h3 : cats = cats') (h4 : st = st') :
    templatePartToPattern tp = templatePartToPattern tp' ∧
    patternBlockToPattern pb cats = patternBlockToPattern pb' cats' ∧
    selectTemplatePartsAsPatterns st categoryId search =
      selectTemplatePartsAsPatterns st' categoryId search ∧
    selectPatterns st categoryId search syncStatus =
      selectPatterns st' categoryId search syncStatus ∧
    selectUserPatterns st search syncStatus =
      selectUserPatterns st' search syncStatus ∧
    (templatePartToPattern tp).templatePart = some tp ∧
    (patternBlockToPattern pb cats).patternBlock = some pb := by
  subst h1; subst h2; subst h3; subst h4
  exact ⟨rfl, rfl, rfl, rfl, rfl, rfl, rfl⟩

/-- C7 (witness): instantiated at concrete equal inputs. -/
theorem projections_deterministic_witness :
    templatePartToPattern sampleTemplatePart =
      templatePartToPattern sampleTemplatePart ∧
    patternBlockToPattern samplePatternBlockCat none =
      patternBlockToPattern samplePatternBlockCat none ∧
    selectTemplatePartsAsPatterns emptyStoreState none "" =
      selectTemplatePartsAsPatterns emptyStoreState none "" ∧
    selectPatterns emptyStoreState none "" none =
      selectPatterns emptyStoreState none "" none ∧
    selectUserPatterns emptyStoreState "" none =
      selectUserPatterns emptyStoreState "" none ∧
    (templatePartToPattern sampleTemplatePart).templatePart =
      some sampleTemplatePart ∧
    (patternBlockToPattern samplePatternBlockCat none).patternBlock =
      some samplePatternBlockCat :=
  projections_deterministic sampleTemplatePart sampleTemplatePart
    samplePatternBlockCat samplePatternBlockCat none none emptyStoreState
    emptyStoreState none "" none rfl rfl rfl rfl

/-- C8: for any category type other than the three known ones (including an
absent one), `usePatterns` returns the canonical empty result, its patterns
being the shared `EMPTY_PATTERN_LIST` constant. -/
theorem usePatterns_unknown_category_empty (st : StoreState)
    (categoryType categoryId : Option String) (search : String)
    (syncStatus : Option String)
    (h1 : categoryType ≠ some TEMPLATE_PARTS)
    (h2 : categoryType ≠ some PATTERNS)
    (h3 : categoryType ≠ some USER_PATTERNS) :
    usePatterns st categoryType categoryId search syncStatus =
      { patterns := EMPTY_PATTERN_LIST, isResolving := false,
        categories := none } ∧
    (usePatterns st categoryType categoryId search syncStatus).patterns =
      EMPTY_PATTERN_LIST := by
  have h : usePatterns st categoryType categoryId search syncStatus =
      { patterns := EMPTY_PATTERN_LIST, isResolving := false,
        categories := none } := by
    unfold usePatterns
    rw [if_neg h1, if_neg h2, if_neg h3]
  exact ⟨h, by rw [h]⟩

/-- C8 (witness): at an absent category type. -/
theorem usePatterns_unknown_category_empty_witness :
    usePatterns emptyStoreState none none "" none =
      { patterns := EMPTY_PATTERN_LIST, isResolving := false,
        categories := none } ∧
    (usePatterns emptyStoreState none none "" none).patterns =
      EMPTY_PATTERN_LIST :=
  usePatterns_unknown_category_empty emptyStoreState none none "" none
    (by simp) (by simp) (by simp)
